import Mathlib

/-!
Verification of the frame/session lifecycle of the openxr-simple-example
repository, as a shallow embedding in Lean 4.

The repository contains three variants of the same demonstration client:
`main.c` (the original C variant), a later C variant with hand tracking and
depth/quad layers, and a C++/Windows variant (`main.cpp`).  The embeddings
below translate the relevant control flow of those files:

* the frame-loop body of `main.c`'s `main_loop` (event drainage, visibility
  gating, the per-hand action queries with the haptic threshold, the
  per-view swapchain acquire/wait/render/release sequence, frame submission),
  modelled as a function from an oracle of runtime responses to the list of
  runtime calls the iteration performs;
* the bootstrap sequence of `main.c`'s `init_openxr` and of the hand-tracking
  variant's `init_openxr`;
* the cube-rotation computation of `render_frame` / `renderFrame`;
* the hand-pose validity computation and the quad-layer aspect-ratio
  computation.

Machine floats of the source are modelled by exact rationals, and the C
`(long)` cast by truncation toward zero.
-/

set_option maxHeartbeats 1000000

namespace XrExample

/-! ## External constants (OpenXR / OpenGL enums used by the source) -/

def XR_SESSION_STATE_IDLE : ℤ := 1
def XR_SESSION_STATE_READY : ℤ := 2
def XR_SESSION_STATE_SYNCHRONIZED : ℤ := 3
def XR_SESSION_STATE_VISIBLE : ℤ := 4
def XR_SESSION_STATE_FOCUSED : ℤ := 5
def XR_SESSION_STATE_STOPPING : ℤ := 6

def XR_SPACE_LOCATION_ORIENTATION_VALID_BIT : ℕ := 1
def XR_SPACE_LOCATION_POSITION_VALID_BIT : ℕ := 2

def XR_VIEW_CONFIGURATION_TYPE_PRIMARY_STEREO : ℤ := 2

def XR_REFERENCE_SPACE_TYPE_VIEW : ℤ := 1
def XR_REFERENCE_SPACE_TYPE_LOCAL : ℤ := 2
def XR_REFERENCE_SPACE_TYPE_STAGE : ℤ := 3

def XR_KHR_OPENGL_ENABLE_EXTENSION_NAME : String := "XR_KHR_opengl_enable"
def XR_EXT_HAND_TRACKING_EXTENSION_NAME : String := "XR_EXT_hand_tracking"

def GL_SRGB8_ALPHA8_EXT : ℤ := 0x8C43
def GL_DEPTH_COMPONENT32 : ℤ := 0x81A7
def GL_RGBA8_EXT : ℤ := 0x8058

/-! ## Calls made against the runtime / graphics collaborators

Each constructor names one call site in the source; the embeddings below
produce the list of calls an execution performs, in program order. -/

inductive Call where
  | pollEvent
  | endSession
  | sdlPoll
  | requestExit
  | waitFrame
  | locateViews
  | syncActions
  | getActionStatePose (hand : ℕ)
  | locateSpace (hand : ℕ)
  | getGrabValue (hand : ℕ)
  | applyHaptic (hand : ℕ)
  | getLeverValue (hand : ℕ)
  | beginFrame
  | acquireImage (view : ℕ)
  | waitImage (view : ℕ)
  | renderView (view : ℕ)
  | releaseImage (view : ℕ)
  | endFrame
  | locateHandJoints (hand : ℕ)
  | acquireDepthImage (view : ℕ)
  | waitDepthImage (view : ℕ)
  | releaseDepthImage (view : ℕ)
  | acquireQuadImage
  | waitQuadImage
  | renderQuad
  | releaseQuadImage
  | enumExtensions
  | enumApiLayers
  | createInstance
  | getInstanceProps
  | getSystem
  | getSystemProps
  | enumViewConfigs
  | getViewConfigProps
  | enumViewConfigViews
  | getGlReqs
  | initGraphicsContext
  | initGlRendering
  | createSession
  | createHandTracker (hand : ℕ)
  | enumRefSpaces
  | createRefSpace
  | beginSession
  | enumSwapchainFormats
  | createSwapchain
  | enumSwapchainImages
  | genFramebuffersCall
deriving DecidableEq

/-! ## Runtime events delivered through `xrPollEvent` -/

inductive RuntimeEvent where
  | eventsLost (count : ℕ)
  | instanceLossPending
  | sessionStateChanged (newState : ℤ)
  | referenceSpaceChangePending
  | interactionProfileChanged
  | visibilityMaskChanged
  | perfSettings
  | unhandled
deriving DecidableEq

inductive StepResult where
  | nextIter
  | exitLoop
deriving DecidableEq

/-! ## Oracle inputs for one frame-loop iteration

Every fallible runtime call is given its success/failure outcome and any
data the source reads from it. -/

structure HandInput where
  poseOk : Bool
  locateOk : Bool
  locationFlags : ℕ
  grabOk : Bool
  grabActive : Bool
  grabValue : ℚ
  hapticOk : Bool
  leverOk : Bool
  leverActive : Bool
  leverValue : ℚ
deriving DecidableEq

structure ViewInput where
  acquireOk : Bool
  acquiredIndex : ℕ
  waitOk : Bool
  releaseOk : Bool
deriving DecidableEq

structure FrameInput where
  events : List RuntimeEvent
  pollEndOk : Bool
  quitRequested : Bool
  waitFrameOk : Bool
  predictedDisplayTime : ℤ
  locateViewsOk : Bool
  syncOk : Bool
  hand0 : HandInput
  hand1 : HandInput
  beginFrameOk : Bool
  views : List ViewInput
  endFrameOk : Bool
deriving DecidableEq

/-- `main.c` `main_loop` persistent loop variables (`running`, `isVisible`). -/
structure LoopState where
  running : Bool
  isVisible : Bool
deriving DecidableEq

/-- The three flags touched while draining runtime events in `main.c`:
`running` (cleared by `XR_TYPE_EVENT_DATA_INSTANCE_LOSS_PENDING`),
`isVisible` and the iteration-local `isStopping` (both updated by
`XR_TYPE_EVENT_DATA_SESSION_STATE_CHANGED`). -/
structure EvOutcome where
  running : Bool
  isVisible : Bool
  isStopping : Bool
deriving DecidableEq

/-- Effect of one drained runtime event on the loop flags
(`main.c` lines 844-941). -/
def applyEvent (st : EvOutcome) (e : RuntimeEvent) : EvOutcome :=
  match e with
  | RuntimeEvent.instanceLossPending => { st with running := false }
  | RuntimeEvent.sessionStateChanged s =>
      { st with
        isVisible := decide (s ≤ XR_SESSION_STATE_FOCUSED),
        isStopping := st.isStopping || decide (XR_SESSION_STATE_STOPPING ≤ s) }
  | _ => st

/-- Drain a list of pending runtime events, folding their effects. -/
def processEvents (events : List RuntimeEvent) (st : EvOutcome) : EvOutcome :=
  events.foldl applyEvent st

/-- `main.c` line 1077: a grab action fires the haptic exactly when it is
active and its current float value is strictly greater than 0.75. -/
def grabFiresHaptic (h : HandInput) : Bool :=
  h.grabActive && decide ((0.75 : ℚ) < h.grabValue)

/-- Body of the per-hand action-processing loop
(`main.c` lines 1025-1111): query the pose state, locate the hand space,
query the grab value, fire the haptic when over threshold, query the lever
value.  All results are checked non-fatally. -/
def processHand (i : ℕ) (h : HandInput) : List Call :=
  [Call.getActionStatePose i, Call.locateSpace i, Call.getGrabValue i]
    ++ (if grabFiresHaptic h then [Call.applyHaptic i] else [])
    ++ [Call.getLeverValue i]

/-- Per-view render loop of `main.c` (lines 1125-1187): acquire the
swapchain image, wait for it, render, release.  A failed call breaks out of
this `for` loop only (the C `break` statement). -/
def viewLoop : ℕ → List ViewInput → List Call
  | _, [] => []
  | i, v :: rest =>
    if v.acquireOk = false then [Call.acquireImage i]
    else if v.waitOk = false then [Call.acquireImage i, Call.waitImage i]
    else if v.releaseOk = false then
      [Call.acquireImage i, Call.waitImage i, Call.renderView i, Call.releaseImage i]
    else
      [Call.acquireImage i, Call.waitImage i, Call.renderView i, Call.releaseImage i]
        ++ viewLoop (i + 1) rest

/-- SDL event polling and the optional graceful exit request
(`main.c` lines 963-971). -/
def sdlTrace (inp : FrameInput) : List Call :=
  Call.sdlPoll :: (if inp.quitRequested then [Call.requestExit] else [])

/-- The two per-hand action-processing passes (`hands = 2`). -/
def handTrace (inp : FrameInput) : List Call :=
  processHand 0 inp.hand0 ++ processHand 1 inp.hand1

/-- One iteration of the `while (running)` loop of `main.c` `main_loop`
(lines 830-1214).  Returns the updated persistent state, the list of calls
the iteration makes in program order, and whether the loop continues or is
exited (`break` at the `while` level). -/
def loopIter (s : LoopState) (inp : FrameInput) : LoopState × List Call × StepResult :=
  let ev := processEvents inp.events
    { running := s.running, isVisible := s.isVisible, isStopping := false }
  let s' : LoopState := { running := ev.running, isVisible := ev.isVisible }
  let polls := List.replicate (inp.events.length + 1) Call.pollEvent
  if inp.pollEndOk = false then
    (s', polls, StepResult.exitLoop)
  else if ev.isStopping then
    (s', polls ++ [Call.endSession], StepResult.exitLoop)
  else if ev.isVisible = false then
    (s', polls, StepResult.nextIter)
  else if inp.waitFrameOk = false then
    (s', polls ++ sdlTrace inp ++ [Call.waitFrame], StepResult.exitLoop)
  else if inp.locateViewsOk = false then
    (s', polls ++ sdlTrace inp ++ [Call.waitFrame, Call.locateViews], StepResult.exitLoop)
  else if inp.beginFrameOk = false then
    (s', polls ++ sdlTrace inp ++ [Call.waitFrame, Call.locateViews, Call.syncActions]
          ++ handTrace inp ++ [Call.beginFrame], StepResult.exitLoop)
  else
    (s', polls ++ sdlTrace inp ++ [Call.waitFrame, Call.locateViews, Call.syncActions]
          ++ handTrace inp ++ [Call.beginFrame] ++ viewLoop 0 inp.views ++ [Call.endFrame],
     if inp.endFrameOk = false then StepResult.exitLoop else StepResult.nextIter)

/-! ## Rendering computations (`glimpl` variants) -/

/-- The C cast `(long)q` of a real value: truncation toward zero. -/
def c_long_cast (q : ℚ) : ℤ :=
  if 0 ≤ q then ⌊q⌋ else -⌊-q⌋

/-- The C `%` operator on `long`: remainder with the sign of the dividend. -/
def c_mod (a n : ℤ) : ℤ :=
  if 0 ≤ a then a % n else -((-a) % n)

/-- `render_frame` line 307: predicted display time (nanoseconds) converted
to seconds. -/
def display_time_seconds (predictedDisplayTime : ℤ) : ℚ :=
  (predictedDisplayTime : ℚ) / (1000 * 1000 * 1000)

/-- `render_frame` line 308: `const float rotations_per_sec = .25`. -/
def rotations_per_sec : ℚ := 0.25

/-- `render_frame` line 309: the cube rotation angle in degrees,
`((long)(display_time_seconds * 360. * rotations_per_sec)) % 360`. -/
def rotation_degrees (predictedDisplayTime : ℤ) : ℤ :=
  c_mod (c_long_cast (display_time_seconds predictedDisplayTime * 360 * rotations_per_sec)) 360

/-- The spec formula for the rotation angle, written from the spec text:
`angle = (floor(display_time_seconds * 360 * 0.25)) mod 360`. -/
def spec_rotation_degrees (dts : ℚ) : ℤ :=
  ⌊dts * 360 * 0.25⌋ % 360

/-- Hand-pose validity computed in the frame loop (hand-tracking variant
lines 1176-1178, `main.cpp` lines 1210-1212, `main.c` lines 1046-1050):
only the orientation-valid bit of the location flags is tested; the
position-valid conjunct is commented out in the source. -/
def hand_location_valid (locationFlags : ℕ) : Bool :=
  (locationFlags &&& XR_SPACE_LOCATION_ORIENTATION_VALID_BIT) != 0

/-- Per-hand draw decision of `render_frame` (lines 331-352 of the
hand-tracking variant's renderer): when the per-joint tracking data is
inactive, a rigid controller block is drawn exactly when the hand location
was marked valid. -/
def draws_controller_block (jointsActive : Bool) (locationValid : Bool) : Bool :=
  !jointsActive && locationValid

/-! ## Quad-layer aspect-ratio computation -/

/-- `main.c` lines 1194-1195: `extent.width / extent.width`, an `int32_t`
division whose result is converted to float. -/
def quad_aspect_main_c (width : ℤ) : ℚ :=
  ((width / width : ℤ) : ℚ)

/-- `main.c` line 1197: quad width in meters, `width * 0.001f`. -/
def quad_size_width_main_c (width : ℤ) : ℚ :=
  (width : ℚ) * 0.001

/-- `main.c` line 1199: quad height derived from the width and the aspect. -/
def quad_size_height_main_c (width : ℤ) : ℚ :=
  quad_size_width_main_c width / quad_aspect_main_c width

/-- `main.cpp` line 1411: `(float)quad_pixel_width / (float)quad_pixel_height`. -/
def quad_aspect_main_cpp (w h : ℕ) : ℚ :=
  (w : ℚ) / (h : ℚ)

/-- The aspect ratio the spec declares as the intended contract:
texture width in pixels divided by texture height in pixels. -/
def quad_aspect_intended (w h : ℕ) : ℚ :=
  (w : ℚ) / (h : ℚ)

/-! ## Bootstrap of `main.c` (`init_openxr`, lines 98-597) -/

/-- `main.c` lines 80-93: linear scan of the enumerated extension names. -/
def isExtensionSupported (extensionName : String) (instanceExtensionProperties : List String) : Bool :=
  instanceExtensionProperties.any (fun e => e == extensionName)

/-- `XR_MAKE_VERSION(4, 5, 0)` (`main.c` line 372). -/
def desired_opengl_version : ℕ := 4 * 2 ^ 48 + 5 * 2 ^ 32

/-- Oracle for the runtime responses consumed by `main.c` `init_openxr`.
Each `...Ok` field is the success of one fallible call; lists carry the
data the source reads from enumerations. -/
structure BootEnv where
  enumExtCountOk : Bool
  enumExtOk : Bool
  extensions : List String
  apiLayers : List String
  createInstanceOk : Bool
  getInstancePropsOk : Bool
  getSystemOk : Bool
  getSystemPropsOk : Bool
  enumViewConfigCountOk : Bool
  enumViewConfigOk : Bool
  viewConfigProps : List (ℤ × Bool)
  enumViewsCountOk : Bool
  enumViewsOk : Bool
  getGlReqsOk : Bool
  glMinApiVersion : ℕ
  glMaxApiVersion : ℕ
  initGLXOk : Bool
  initGlImplOk : Bool
  createSessionOk : Bool
  enumRefSpacesCountOk : Bool
  enumRefSpacesOk : Bool
  refSpaces : List ℤ
  createRefSpaceOk : Bool
  beginSessionOk : Bool
  enumFormatsCountOk : Bool
  enumFormatsOk : Bool
  colorLoop : List (Bool × Bool)
  imageEnumLoop : List Bool
deriving DecidableEq

/-- `main.c` lines 282-310: one `xrGetViewConfigurationProperties` call per
enumerated configuration; a failed call aborts, otherwise the loop records
whether the stereo configuration was seen.  `none` models the early
`return 1`. -/
def viewConfigPropsLoop : List (ℤ × Bool) → Option Bool × List Call
  | [] => (some false, [])
  | (cfg, ok) :: rest =>
    if ok = false then (none, [Call.getViewConfigProps])
    else
      let r := viewConfigPropsLoop rest
      (r.1.map (fun found => found || decide (cfg = XR_VIEW_CONFIGURATION_TYPE_PRIMARY_STEREO)),
       Call.getViewConfigProps :: r.2)

/-- `main.c` lines 534-559: per view, create a swapchain and enumerate its
image count; the first failure aborts. -/
def createSwapchainsLoop : List (Bool × Bool) → Bool × List Call
  | [] => (true, [])
  | (createOk, enumOk) :: rest =>
    if createOk = false then (false, [Call.createSwapchain])
    else if enumOk = false then (false, [Call.createSwapchain, Call.enumSwapchainImages])
    else
      let r := createSwapchainsLoop rest
      (r.1, Call.createSwapchain :: Call.enumSwapchainImages :: r.2)

/-- `main.c` lines 565-586: per view, enumerate the swapchain images and
generate the local framebuffers; the first failure aborts. -/
def enumImagesLoop : List Bool → Bool × List Call
  | [] => (true, [])
  | ok :: rest =>
    if ok = false then (false, [Call.enumSwapchainImages])
    else
      let r := enumImagesLoop rest
      (r.1, Call.enumSwapchainImages :: Call.genFramebuffersCall :: r.2)

/-- `main.c` `init_openxr`: the bootstrap sequence.  Returns the C return
value (`0` success, `1` failure) and the list of collaborator calls made,
in program order.  Every mandatory call failure returns `1` immediately. -/
def init_openxr (env : BootEnv) : ℕ × List Call :=
  let t := [Call.enumExtensions]
  if env.enumExtCountOk = false then (1, t) else
  let t := t ++ [Call.enumExtensions]
  if env.enumExtOk = false then (1, t) else
  if isExtensionSupported XR_KHR_OPENGL_ENABLE_EXTENSION_NAME env.extensions = false then
    (1, t) else
  let t := t ++ [Call.enumApiLayers, Call.enumApiLayers]
  let t := t ++ [Call.createInstance]
  if env.createInstanceOk = false then (1, t) else
  let t := t ++ [Call.getInstanceProps]
  if env.getInstancePropsOk = false then (1, t) else
  let t := t ++ [Call.getSystem]
  if env.getSystemOk = false then (1, t) else
  let t := t ++ [Call.getSystemProps]
  if env.getSystemPropsOk = false then (1, t) else
  let t := t ++ [Call.enumViewConfigs]
  if env.enumViewConfigCountOk = false then (1, t) else
  let t := t ++ [Call.enumViewConfigs]
  if env.enumViewConfigOk = false then (1, t) else
  let r := viewConfigPropsLoop env.viewConfigProps
  let t := t ++ r.2
  match r.1 with
  | none => (1, t)
  | some stereoFound =>
    if stereoFound = false then (1, t) else
    let t := t ++ [Call.enumViewConfigViews]
    if env.enumViewsCountOk = false then (1, t) else
    let t := t ++ [Call.enumViewConfigViews]
    if env.enumViewsOk = false then (1, t) else
    let t := t ++ [Call.getGlReqs]
    if env.getGlReqsOk = false then (1, t) else
    if (decide (env.glMaxApiVersion < desired_opengl_version)
        || decide (desired_opengl_version < env.glMinApiVersion)) then (1, t) else
    let t := t ++ [Call.initGraphicsContext]
    if env.initGLXOk = false then (1, t) else
    let t := t ++ [Call.initGlRendering]
    if env.initGlImplOk = false then (1, t) else
    let t := t ++ [Call.createSession]
    if env.createSessionOk = false then (1, t) else
    let t := t ++ [Call.enumRefSpaces]
    if env.enumRefSpacesCountOk = false then (1, t) else
    let t := t ++ [Call.enumRefSpaces]
    if env.enumRefSpacesOk = false then (1, t) else
    if env.refSpaces.contains XR_REFERENCE_SPACE_TYPE_LOCAL = false then (1, t) else
    let t := t ++ [Call.createRefSpace]
    if env.createRefSpaceOk = false then (1, t) else
    let t := t ++ [Call.beginSession]
    if env.beginSessionOk = false then (1, t) else
    let t := t ++ [Call.enumSwapchainFormats]
    if env.enumFormatsCountOk = false then (1, t) else
    let t := t ++ [Call.enumSwapchainFormats]
    if env.enumFormatsOk = false then (1, t) else
    let r2 := createSwapchainsLoop env.colorLoop
    let t := t ++ r2.2
    if r2.1 = false then (1, t) else
    let r3 := enumImagesLoop env.imageEnumLoop
    let t := t ++ r3.2
    if r3.1 = false then (1, t) else
    (0, t)

/-- `main.c` `main` (lines 1233-1243): the process exit code.  A nonzero
`init_openxr` result is returned as-is; otherwise the frame loop and
cleanup run and the process exits with 0. -/
def c_main (env : BootEnv) : ℕ :=
  let ret := (init_openxr env).1
  if ret ≠ 0 then ret else 0

/-! ## Bootstrap and frame loop of the hand-tracking variant

The second C variant of the repository extends `init_openxr` with optional
hand tracking (capability flags `hand_tracking_ext` /
`hand_tracking_supported`), depth and quad swapchains, and a frame loop
whose hand-joint location calls are guarded by the capability flag. -/

/-- The capability context produced once by the hand-tracking variant's
bootstrap and read-only afterwards. -/
structure XrCtx2 where
  hand_tracking_ext : Bool
  hand_tracking_supported : Bool
  tracker0 : Bool
  tracker1 : Bool
deriving DecidableEq

/-- Oracle for the runtime responses consumed by the hand-tracking
variant's `init_openxr`. -/
structure BootEnv2 where
  enumExtCountOk : Bool
  enumExtOk : Bool
  extensions : List String
  createInstanceOk : Bool
  getSystemOk : Bool
  getSystemPropsOk : Bool
  supportsHandTracking : Bool
  enumViewsCountOk : Bool
  enumViewsOk : Bool
  getProcAddrGlReqsOk : Bool
  getGlReqsOk : Bool
  initSdlWindowOk : Bool
  initGlOk : Bool
  createSessionOk : Bool
  getCreateHandTrackerProcOk : Bool
  createHandTracker0Ok : Bool
  createHandTracker1Ok : Bool
  createRefSpaceOk : Bool
  beginSessionOk : Bool
  enumFormatsCountOk : Bool
  enumFormatsOk : Bool
  swapchainFormats : List ℤ
  colorLoop : List (Bool × Bool)
  depthLoop : List (Bool × Bool)
  quadCreateOk : Bool
  quadEnumOk : Bool
deriving DecidableEq

structure InitResult2 where
  ret : ℕ
  ctx : XrCtx2
  trace : List Call
deriving DecidableEq

/-- Per-view swapchain creation loop of the hand-tracking variant
(`create + enumerate images`, first failure aborts); used for both the
color and the depth swapchains. -/
def swapchainLoop2 : List (Bool × Bool) → Bool × List Call
  | [] => (true, [])
  | (createOk, enumOk) :: rest =>
    if createOk = false then (false, [Call.createSwapchain])
    else if enumOk = false then (false, [Call.createSwapchain, Call.enumSwapchainImages])
    else
      let r := swapchainLoop2 rest
      (r.1, Call.createSwapchain :: Call.enumSwapchainImages :: Call.enumSwapchainImages :: r.2)

/-- Tail of the hand-tracking variant's `init_openxr` after session and
hand-tracker creation (lines 546-751): reference space, session begin,
swapchain format selection (with the hard failure when the preferred depth
format is unsupported), and the color/depth/quad swapchain creation. -/
def init_openxr2_tail (env : BootEnv2) (ctx : XrCtx2) (t : List Call) : InitResult2 :=
  let t := t ++ [Call.enumRefSpaces, Call.enumRefSpaces]
  let t := t ++ [Call.createRefSpace]
  if env.createRefSpaceOk = false then ⟨1, ctx, t⟩ else
  let t := t ++ [Call.beginSession]
  if env.beginSessionOk = false then ⟨1, ctx, t⟩ else
  let t := t ++ [Call.enumSwapchainFormats]
  if env.enumFormatsCountOk = false then ⟨1, ctx, t⟩ else
  let t := t ++ [Call.enumSwapchainFormats]
  if env.enumFormatsOk = false then ⟨1, ctx, t⟩ else
  let r := swapchainLoop2 env.colorLoop
  let t := t ++ r.2
  if r.1 = false then ⟨1, ctx, t⟩ else
  let t := t ++ [Call.genFramebuffersCall]
  if env.swapchainFormats.contains GL_DEPTH_COMPONENT32 = false then ⟨1, ctx, t⟩ else
  let r2 := swapchainLoop2 env.depthLoop
  let t := t ++ r2.2
  if r2.1 = false then ⟨1, ctx, t⟩ else
  let t := t ++ [Call.createSwapchain]
  if env.quadCreateOk = false then ⟨1, ctx, t⟩ else
  let t := t ++ [Call.enumSwapchainImages, Call.enumSwapchainImages]
  if env.quadEnumOk = false then ⟨1, ctx, t⟩ else
  ⟨0, ctx, t⟩

/-- The hand-tracking variant's `init_openxr` (lines 277-751).  The
capability flags are computed once from the enumerated extension list and
the system properties; a missing optional extension only clears the flags,
while the missing OpenGL extension is a hard failure. -/
def init_openxr2 (env : BootEnv2) : InitResult2 :=
  let ctx0 : XrCtx2 :=
    { hand_tracking_ext := false, hand_tracking_supported := false,
      tracker0 := false, tracker1 := false }
  let t := [Call.enumExtensions]
  if env.enumExtCountOk = false then ⟨1, ctx0, t⟩ else
  let t := t ++ [Call.enumExtensions]
  if env.enumExtOk = false then ⟨1, ctx0, t⟩ else
  let opengl_ext := isExtensionSupported XR_KHR_OPENGL_ENABLE_EXTENSION_NAME env.extensions
  let hand_tracking_ext := isExtensionSupported XR_EXT_HAND_TRACKING_EXTENSION_NAME env.extensions
  let ctx1 := { ctx0 with hand_tracking_ext := hand_tracking_ext }
  if opengl_ext = false then ⟨1, ctx1, t⟩ else
  let t := t ++ [Call.createInstance]
  if env.createInstanceOk = false then ⟨1, ctx1, t⟩ else
  let t := t ++ [Call.getInstanceProps]
  let t := t ++ [Call.getSystem]
  if env.getSystemOk = false then ⟨1, ctx1, t⟩ else
  let t := t ++ [Call.getSystemProps]
  if env.getSystemPropsOk = false then ⟨1, ctx1, t⟩ else
  let hand_tracking_supported := hand_tracking_ext && env.supportsHandTracking
  let ctx2 := { ctx1 with hand_tracking_supported := hand_tracking_supported }
  let t := t ++ [Call.enumViewConfigs, Call.enumViewConfigs]
  let t := t ++ [Call.enumViewConfigViews]
  if env.enumViewsCountOk = false then ⟨1, ctx2, t⟩ else
  let t := t ++ [Call.enumViewConfigViews]
  if env.enumViewsOk = false then ⟨1, ctx2, t⟩ else
  if env.getProcAddrGlReqsOk = false then ⟨1, ctx2, t⟩ else
  let t := t ++ [Call.getGlReqs]
  if env.getGlReqsOk = false then ⟨1, ctx2, t⟩ else
  let t := t ++ [Call.initGraphicsContext]
  if env.initSdlWindowOk = false then ⟨1, ctx2, t⟩ else
  let t := t ++ [Call.initGlRendering]
  if env.initGlOk = false then ⟨1, ctx2, t⟩ else
  let t := t ++ [Call.createSession]
  if env.createSessionOk = false then ⟨1, ctx2, t⟩ else
  if hand_tracking_supported then
    if env.getCreateHandTrackerProcOk = false then ⟨1, ctx2, t⟩ else
    let t := t ++ [Call.createHandTracker 0]
    if env.createHandTracker0Ok = false then ⟨1, ctx2, t⟩ else
    let t := t ++ [Call.createHandTracker 1]
    if env.createHandTracker1Ok = false then ⟨1, ctx2, t⟩ else
    let ctx3 := { ctx2 with tracker0 := true, tracker1 := true }
    init_openxr2_tail env ctx3 t
  else
    init_openxr2_tail env ctx2 t

/-- All fallible bootstrap calls of the hand-tracking variant succeed, the
OpenGL extension is enumerated, and the preferred depth format is offered:
the conditions under which `init_openxr2` cannot fail for a reason other
than hand tracking. -/
def BootEnv2.allCallsOk (env : BootEnv2) : Bool :=
  env.enumExtCountOk && env.enumExtOk
    && isExtensionSupported XR_KHR_OPENGL_ENABLE_EXTENSION_NAME env.extensions
    && env.createInstanceOk && env.getSystemOk && env.getSystemPropsOk
    && env.enumViewsCountOk && env.enumViewsOk
    && env.getProcAddrGlReqsOk && env.getGlReqsOk
    && env.initSdlWindowOk && env.initGlOk && env.createSessionOk
    && env.getCreateHandTrackerProcOk && env.createHandTracker0Ok && env.createHandTracker1Ok
    && env.createRefSpaceOk && env.beginSessionOk
    && env.enumFormatsCountOk && env.enumFormatsOk
    && env.swapchainFormats.contains GL_DEPTH_COMPONENT32
    && env.colorLoop.all (fun p => p.1 && p.2)
    && env.depthLoop.all (fun p => p.1 && p.2)
    && env.quadCreateOk && env.quadEnumOk

/-- Event-drain state of the hand-tracking variant: the persistent
`self->state` session state and the iteration-local `session_stopping`. -/
structure EvOutcome2 where
  state : ℤ
  stopping : Bool
deriving DecidableEq

/-- Effect of one drained runtime event in the hand-tracking variant
(lines 976-1054): instance loss and a session state at or beyond STOPPING
set `session_stopping`; a state-change event always records the new state. -/
def applyEvent2 (st : EvOutcome2) (e : RuntimeEvent) : EvOutcome2 :=
  match e with
  | RuntimeEvent.instanceLossPending => { st with stopping := true }
  | RuntimeEvent.sessionStateChanged s =>
      { state := s, stopping := st.stopping || decide (XR_SESSION_STATE_STOPPING ≤ s) }
  | _ => st

def processEvents2 (events : List RuntimeEvent) (st : EvOutcome2) : EvOutcome2 :=
  events.foldl applyEvent2 st

/-- Hand-joint location block of the hand-tracking variant's frame loop
(lines 1079-1116): guarded by `hand_tracking_supported`; a null tracker is
skipped; a failed locate call breaks out of the two-hand loop. -/
def handJointsTrace (ctx : XrCtx2) (locOk0 _locOk1 : Bool) : List Call :=
  if ctx.hand_tracking_supported then
    if ctx.tracker0 then
      Call.locateHandJoints 0 ::
        (if locOk0 = false then []
         else if ctx.tracker1 then [Call.locateHandJoints 1] else [])
    else if ctx.tracker1 then [Call.locateHandJoints 1] else []
  else []

/-- Per-view oracle for the hand-tracking variant (color and depth
swapchain calls per view). -/
structure ViewInput2 where
  acquireOk : Bool
  waitOk : Bool
  depthAcquireOk : Bool
  depthWaitOk : Bool
  releaseOk : Bool
  depthReleaseOk : Bool
deriving DecidableEq

/-- Per-view render loop of the hand-tracking variant (lines 1249-1316):
acquire/wait the color image, acquire/wait the depth image, render,
release both.  A failed call breaks out of this `for` loop only. -/
def viewLoop2 : ℕ → List ViewInput2 → List Call
  | _, [] => []
  | i, v :: rest =>
    if v.acquireOk = false then [Call.acquireImage i]
    else if v.waitOk = false then [Call.acquireImage i, Call.waitImage i]
    else if v.depthAcquireOk = false then
      [Call.acquireImage i, Call.waitImage i, Call.acquireDepthImage i]
    else if v.depthWaitOk = false then
      [Call.acquireImage i, Call.waitImage i, Call.acquireDepthImage i, Call.waitDepthImage i]
    else if v.releaseOk = false then
      [Call.acquireImage i, Call.waitImage i, Call.acquireDepthImage i, Call.waitDepthImage i,
       Call.renderView i, Call.releaseImage i]
    else if v.depthReleaseOk = false then
      [Call.acquireImage i, Call.waitImage i, Call.acquireDepthImage i, Call.waitDepthImage i,
       Call.renderView i, Call.releaseImage i, Call.releaseDepthImage i]
    else
      [Call.acquireImage i, Call.waitImage i, Call.acquireDepthImage i, Call.waitDepthImage i,
       Call.renderView i, Call.releaseImage i, Call.releaseDepthImage i]
        ++ viewLoop2 (i + 1) rest

/-- Oracle inputs for one iteration of the hand-tracking variant's frame
loop. -/
structure FrameInput2 where
  quitRequested : Bool
  events : List RuntimeEvent
  pollEndOk : Bool
  waitFrameOk : Bool
  predictedDisplayTime : ℤ
  locateJoints0Ok : Bool
  locateJoints1Ok : Bool
  locateViewsOk : Bool
  hand0 : HandInput
  hand1 : HandInput
  beginFrameOk : Bool
  views : List ViewInput2
  quadAcquireOk : Bool
  quadWaitOk : Bool
  quadReleaseOk : Bool
  endFrameOk : Bool
deriving DecidableEq

/-- One iteration of the hand-tracking variant's `while (true)` loop
(lines 952-1383): SDL polling, event drainage, the stopping check, frame
wait, the guarded hand-joint block, view location, action processing,
frame begin, the per-view render loop, the quad-layer render pass, and
frame submission. -/
def loopIter2 (ctx : XrCtx2) (st : ℤ) (inp : FrameInput2) : ℤ × List Call × StepResult :=
  let sdl := Call.sdlPoll :: (if inp.quitRequested then [Call.requestExit] else [])
  let ev := processEvents2 inp.events { state := st, stopping := false }
  let polls := List.replicate (inp.events.length + 1) Call.pollEvent
  if inp.pollEndOk = false then (ev.state, sdl ++ polls, StepResult.exitLoop)
  else if ev.stopping then (ev.state, sdl ++ polls, StepResult.exitLoop)
  else if inp.waitFrameOk = false then
    (ev.state, sdl ++ polls ++ [Call.waitFrame], StepResult.exitLoop)
  else
    let hj := handJointsTrace ctx inp.locateJoints0Ok inp.locateJoints1Ok
    if inp.locateViewsOk = false then
      (ev.state, sdl ++ polls ++ [Call.waitFrame] ++ hj ++ [Call.locateViews],
       StepResult.exitLoop)
    else
      let hands := processHand 0 inp.hand0 ++ processHand 1 inp.hand1
      if inp.beginFrameOk = false then
        (ev.state, sdl ++ polls ++ [Call.waitFrame] ++ hj
            ++ [Call.locateViews, Call.syncActions] ++ hands ++ [Call.beginFrame],
         StepResult.exitLoop)
      else
        let base := sdl ++ polls ++ [Call.waitFrame] ++ hj
            ++ [Call.locateViews, Call.syncActions] ++ hands ++ [Call.beginFrame]
            ++ viewLoop2 0 inp.views
        if inp.quadAcquireOk = false then
          (ev.state, base ++ [Call.acquireQuadImage], StepResult.exitLoop)
        else if inp.quadWaitOk = false then
          (ev.state, base ++ [Call.acquireQuadImage, Call.waitQuadImage], StepResult.exitLoop)
        else if inp.quadReleaseOk = false then
          (ev.state, base ++ [Call.acquireQuadImage, Call.waitQuadImage, Call.renderQuad,
             Call.releaseQuadImage], StepResult.exitLoop)
        else
          (ev.state, base ++ [Call.acquireQuadImage, Call.waitQuadImage, Call.renderQuad,
             Call.releaseQuadImage, Call.endFrame],
           if inp.endFrameOk = false then StepResult.exitLoop else StepResult.nextIter)

/-! ## Auxiliary predicates over traces -/

/-- All three per-view swapchain calls of `main.c` succeed for this view. -/
def viewAllOk (v : ViewInput) : Bool :=
  v.acquireOk && v.waitOk && v.releaseOk

/-- Whether a call is one of the four per-view swapchain-lifecycle calls of
`main.c` for view `v`. -/
def isViewCall (v : ℕ) : Call → Bool
  | Call.acquireImage w => v == w
  | Call.waitImage w => v == w
  | Call.renderView w => v == w
  | Call.releaseImage w => v == w
  | _ => false

/-! ## Concrete inputs used to witness the theorems below -/

/-- A hand whose grab action is inactive. -/
def handInactive : HandInput :=
  { poseOk := true, locateOk := true, locationFlags := 3,
    grabOk := true, grabActive := false, grabValue := 0,
    hapticOk := true, leverOk := true, leverActive := false, leverValue := 0 }

/-- A hand whose grab action is active with value 1 (over the threshold). -/
def handGrabbing : HandInput :=
  { poseOk := true, locateOk := true, locationFlags := 3,
    grabOk := true, grabActive := true, grabValue := 1,
    hapticOk := true, leverOk := true, leverActive := false, leverValue := 0 }

/-- A view whose acquire/wait/release calls all succeed. -/
def viewOk : ViewInput :=
  { acquireOk := true, acquiredIndex := 0, waitOk := true, releaseOk := true }

/-- A view whose acquire call fails. -/
def viewAcquireFails : ViewInput :=
  { acquireOk := false, acquiredIndex := 0, waitOk := true, releaseOk := true }

/-- The initial `main_loop` state of `main.c`: `running = true`,
`isVisible = true`. -/
def initialLoopState : LoopState :=
  { running := true, isVisible := true }

/-- A loop state whose visibility flag was cleared by an earlier
iteration. -/
def loopStateInvisible : LoopState :=
  { running := true, isVisible := false }

/-- A frame iteration with no pending events and every call succeeding. -/
def frameAllOk : FrameInput :=
  { events := [], pollEndOk := true, quitRequested := false,
    waitFrameOk := true, predictedDisplayTime := 0,
    locateViewsOk := true, syncOk := true,
    hand0 := handGrabbing, hand1 := handInactive,
    beginFrameOk := true, views := [viewOk, viewOk], endFrameOk := true }

/-- Both hands inactive, everything succeeding. -/
def frameQuiet : FrameInput :=
  { frameAllOk with hand0 := handInactive }

/-- An iteration that receives a session-state change to `IDLE` (state 1),
with every call succeeding. -/
def frameIdleEvent : FrameInput :=
  { frameQuiet with events := [RuntimeEvent.sessionStateChanged XR_SESSION_STATE_IDLE] }

/-- An iteration whose single view fails its acquire call, with every
other call succeeding. -/
def frameAcquireFails : FrameInput :=
  { frameQuiet with views := [viewAcquireFails] }

/-- A bootstrap environment for `main.c` in which everything succeeds. -/
def bootOk : BootEnv :=
  { enumExtCountOk := true, enumExtOk := true,
    extensions := [XR_KHR_OPENGL_ENABLE_EXTENSION_NAME],
    apiLayers := [], createInstanceOk := true, getInstancePropsOk := true,
    getSystemOk := true, getSystemPropsOk := true,
    enumViewConfigCountOk := true, enumViewConfigOk := true,
    viewConfigProps := [(XR_VIEW_CONFIGURATION_TYPE_PRIMARY_STEREO, true)],
    enumViewsCountOk := true, enumViewsOk := true,
    getGlReqsOk := true, glMinApiVersion := 0,
    glMaxApiVersion := desired_opengl_version,
    initGLXOk := true, initGlImplOk := true, createSessionOk := true,
    enumRefSpacesCountOk := true, enumRefSpacesOk := true,
    refSpaces := [XR_REFERENCE_SPACE_TYPE_LOCAL],
    createRefSpaceOk := true, beginSessionOk := true,
    enumFormatsCountOk := true, enumFormatsOk := true,
    colorLoop := [(true, true), (true, true)],
    imageEnumLoop := [true, true] }

/-- The same environment but with an extension list that lacks the
mandatory OpenGL interop extension. -/
def bootNoOpenGL : BootEnv :=
  { bootOk with extensions := [] }

/-- A bootstrap environment for the hand-tracking variant in which every
call succeeds but the hand-tracking extension is not enumerated. -/
def boot2NoHandTracking : BootEnv2 :=
  { enumExtCountOk := true, enumExtOk := true,
    extensions := [XR_KHR_OPENGL_ENABLE_EXTENSION_NAME],
    createInstanceOk := true, getSystemOk := true, getSystemPropsOk := true,
    supportsHandTracking := true,
    enumViewsCountOk := true, enumViewsOk := true,
    getProcAddrGlReqsOk := true, getGlReqsOk := true,
    initSdlWindowOk := true, initGlOk := true, createSessionOk := true,
    getCreateHandTrackerProcOk := true,
    createHandTracker0Ok := true, createHandTracker1Ok := true,
    createRefSpaceOk := true, beginSessionOk := true,
    enumFormatsCountOk := true, enumFormatsOk := true,
    swapchainFormats := [GL_SRGB8_ALPHA8_EXT, GL_DEPTH_COMPONENT32, GL_RGBA8_EXT],
    colorLoop := [(true, true), (true, true)],
    depthLoop := [(true, true), (true, true)],
    quadCreateOk := true, quadEnumOk := true }

/-! ## Lemmas about the trace segments -/

lemma mem_sdlTrace {c : Call} {inp : FrameInput} (h : c ∈ sdlTrace inp) :
    c = Call.sdlPoll ∨ c = Call.requestExit := by
  unfold sdlTrace at h
  by_cases hq : inp.quitRequested <;> simp [hq] at h <;> tauto

lemma mem_processHand {c : Call} {i : ℕ} {h : HandInput} (hm : c ∈ processHand i h) :
    c = Call.getActionStatePose i ∨ c = Call.locateSpace i ∨ c = Call.getGrabValue i
      ∨ c = Call.applyHaptic i ∨ c = Call.getLeverValue i := by
  unfold processHand at hm
  by_cases hg : grabFiresHaptic h <;> simp [hg] at hm <;> tauto

lemma applyHaptic_mem_processHand {j i : ℕ} {h : HandInput} :
    Call.applyHaptic j ∈ processHand i h ↔ (j = i ∧ grabFiresHaptic h = true) := by
  unfold processHand
  by_cases hg : grabFiresHaptic h <;> simp [hg]

lemma count_applyHaptic_processHand (j i : ℕ) (h : HandInput) :
    (processHand i h).count (Call.applyHaptic j)
      = if j = i ∧ grabFiresHaptic h = true then 1 else 0 := by
  unfold processHand
  by_cases hg : grabFiresHaptic h <;> by_cases hj : j = i <;>
    simp [hg, hj, List.count_cons, List.count_append]

lemma applyHaptic_mem_handTrace {j : ℕ} {inp : FrameInput} :
    Call.applyHaptic j ∈ handTrace inp
      ↔ ((j = 0 ∧ grabFiresHaptic inp.hand0 = true)
          ∨ (j = 1 ∧ grabFiresHaptic inp.hand1 = true)) := by
  simp [handTrace, applyHaptic_mem_processHand]

lemma viewLoop_mem_strong (l : List ViewInput) :
    ∀ (i : ℕ) (c : Call), c ∈ viewLoop i l →
      ∃ j, ∃ hj : j < l.length,
        (∀ k, ∀ hk : k < j, viewAllOk (l.get ⟨k, Nat.lt_trans hk hj⟩) = true)
        ∧ (c = Call.acquireImage (i + j)
           ∨ (c = Call.waitImage (i + j) ∧ (l.get ⟨j, hj⟩).acquireOk = true)
           ∨ ((c = Call.renderView (i + j) ∨ c = Call.releaseImage (i + j))
               ∧ (l.get ⟨j, hj⟩).acquireOk = true ∧ (l.get ⟨j, hj⟩).waitOk = true)) := by
  induction l with
  | nil =>
    intro i c hm
    simp [viewLoop] at hm
  | cons v rest ih =>
    intro i c hm
    unfold viewLoop at hm
    by_cases h1 : v.acquireOk = false
    · rw [if_pos h1] at hm
      simp at hm
      subst hm
      exact ⟨0, Nat.succ_pos _, fun k hk => absurd hk (Nat.not_lt_zero k), Or.inl (by simp)⟩
    · have h1t : v.acquireOk = true := by revert h1; cases v.acquireOk <;> simp
      rw [if_neg h1] at hm
      by_cases h2 : v.waitOk = false
      · rw [if_pos h2] at hm
        simp at hm
        rcases hm with hm | hm <;> subst hm
        · exact ⟨0, Nat.succ_pos _, fun k hk => absurd hk (Nat.not_lt_zero k), Or.inl (by simp)⟩
        · exact ⟨0, Nat.succ_pos _, fun k hk => absurd hk (Nat.not_lt_zero k),
            Or.inr (Or.inl ⟨by simp, h1t⟩)⟩
      · have h2t : v.waitOk = true := by revert h2; cases v.waitOk <;> simp
        rw [if_neg h2] at hm
        by_cases h3 : v.releaseOk = false
        · rw [if_pos h3] at hm
          simp at hm
          rcases hm with hm | hm | hm | hm <;> subst hm
          · exact ⟨0, Nat.succ_pos _, fun k hk => absurd hk (Nat.not_lt_zero k), Or.inl (by simp)⟩
          · exact ⟨0, Nat.succ_pos _, fun k hk => absurd hk (Nat.not_lt_zero k),
              Or.inr (Or.inl ⟨by simp, h1t⟩)⟩
          · exact ⟨0, Nat.succ_pos _, fun k hk => absurd hk (Nat.not_lt_zero k),
              Or.inr (Or.inr ⟨Or.inl (by simp), h1t, h2t⟩)⟩
          · exact ⟨0, Nat.succ_pos _, fun k hk => absurd hk (Nat.not_lt_zero k),
              Or.inr (Or.inr ⟨Or.inr (by simp), h1t, h2t⟩)⟩
        · have h3t : v.releaseOk = true := by revert h3; cases v.releaseOk <;> simp
          rw [if_neg h3, List.mem_append] at hm
          rcases hm with hm | hm
          · simp at hm
            rcases hm with hm | hm | hm | hm <;> subst hm
            · exact ⟨0, Nat.succ_pos _, fun k hk => absurd hk (Nat.not_lt_zero k),
                Or.inl (by simp)⟩
            · exact ⟨0, Nat.succ_pos _, fun k hk => absurd hk (Nat.not_lt_zero k),
                Or.inr (Or.inl ⟨by simp, h1t⟩)⟩
            · exact ⟨0, Nat.succ_pos _, fun k hk => absurd hk (Nat.not_lt_zero k),
                Or.inr (Or.inr ⟨Or.inl (by simp), h1t, h2t⟩)⟩
            · exact ⟨0, Nat.succ_pos _, fun k hk => absurd hk (Nat.not_lt_zero k),
                Or.inr (Or.inr ⟨Or.inr (by simp), h1t, h2t⟩)⟩
          · obtain ⟨j, hj, hks, hd⟩ := ih (i + 1) c hm
            refine ⟨j + 1, Nat.succ_lt_succ hj, ?_, ?_⟩
            · intro k hk
              cases k with
              | zero => simp [viewAllOk, h1t, h2t, h3t]
              | succ k2 => exact hks k2 (Nat.lt_of_succ_lt_succ hk)
            · have harith : i + 1 + j = i + (j + 1) := by omega
              rw [harith] at hd
              exact hd

lemma viewLoop_shape {i : ℕ} {l : List ViewInput} {c : Call} (hm : c ∈ viewLoop i l) :
    ∃ j, c = Call.acquireImage j ∨ c = Call.waitImage j
      ∨ c = Call.renderView j ∨ c = Call.releaseImage j := by
  obtain ⟨j, hj, _, hd⟩ := viewLoop_mem_strong l i c hm
  exact ⟨i + j, by tauto⟩

lemma not_mem_viewLoop {c : Call} {i : ℕ} {l : List ViewInput}
    (h : ∀ j, c ≠ Call.acquireImage j ∧ c ≠ Call.waitImage j
          ∧ c ≠ Call.renderView j ∧ c ≠ Call.releaseImage j) :
    c ∉ viewLoop i l := by
  intro hm
  obtain ⟨j, hd⟩ := viewLoop_shape hm
  rcases hd with h1 | h1 | h1 | h1
  · exact absurd h1 (h j).1
  · exact absurd h1 (h j).2.1
  · exact absurd h1 (h j).2.2.1
  · exact absurd h1 (h j).2.2.2

lemma pollEvent_not_mem_sdlTrace (inp : FrameInput) : Call.pollEvent ∉ sdlTrace inp := by
  intro hm
  rcases mem_sdlTrace hm with h | h <;> simp at h

lemma pollEvent_not_mem_processHand (i : ℕ) (h : HandInput) :
    Call.pollEvent ∉ processHand i h := by
  intro hm
  rcases mem_processHand hm with h1 | h1 | h1 | h1 | h1 <;> simp at h1

lemma pollEvent_not_mem_handTrace (inp : FrameInput) : Call.pollEvent ∉ handTrace inp := by
  intro hm
  rcases List.mem_append.mp hm with h | h
  · exact pollEvent_not_mem_processHand 0 inp.hand0 h
  · exact pollEvent_not_mem_processHand 1 inp.hand1 h

lemma pollEvent_not_mem_viewLoop (i : ℕ) (l : List ViewInput) :
    Call.pollEvent ∉ viewLoop i l :=
  not_mem_viewLoop (fun j => ⟨by simp, by simp, by simp, by simp⟩)

lemma applyHaptic_not_mem_viewLoop (j i : ℕ) (l : List ViewInput) :
    Call.applyHaptic j ∉ viewLoop i l :=
  not_mem_viewLoop (fun k => ⟨by simp, by simp, by simp, by simp⟩)

lemma endFrame_not_mem_viewLoop (i : ℕ) (l : List ViewInput) :
    Call.endFrame ∉ viewLoop i l :=
  not_mem_viewLoop (fun k => ⟨by simp, by simp, by simp, by simp⟩)

lemma filter_viewLoop_out (l : List ViewInput) :
    ∀ (i v : ℕ), v < i → (viewLoop i l).filter (isViewCall v) = [] := by
  induction l with
  | nil =>
    intro i v _
    simp [viewLoop]
  | cons w rest ih =>
    intro i v hv
    have hne : (v == i) = false := by
      simp only [beq_eq_false_iff_ne]
      omega
    unfold viewLoop
    split
    · simp [isViewCall, hne]
    · split
      · simp [isViewCall, hne]
      · split
        · simp [isViewCall, hne]
        · simp [isViewCall, hne, List.filter_append, ih (i + 1) v (Nat.lt_succ_of_lt hv)]

lemma filter_viewLoop_all_ok (l : List ViewInput) :
    ∀ (i v : ℕ), (∀ x ∈ l, viewAllOk x = true) → i ≤ v → v < i + l.length →
      (viewLoop i l).filter (isViewCall v)
        = [Call.acquireImage v, Call.waitImage v, Call.renderView v, Call.releaseImage v] := by
  induction l with
  | nil =>
    intro i v _ _ h2
    simp at h2
    omega
  | cons w rest ih =>
    intro i v hok hle hlt
    have hw : viewAllOk w = true := hok w (List.mem_cons_self w rest)
    simp only [viewAllOk, Bool.and_eq_true] at hw
    obtain ⟨⟨hw1, hw2⟩, hw3⟩ := hw
    unfold viewLoop
    rw [if_neg (by simp [hw1]), if_neg (by simp [hw2]), if_neg (by simp [hw3]),
      List.filter_append]
    by_cases hv : v = i
    · subst hv
      simp [isViewCall, filter_viewLoop_out rest (v + 1) v (Nat.lt_succ_self v)]
    · have hne : (v == i) = false := by
        simp only [beq_eq_false_iff_ne]
        exact hv
      have hle2 : i + 1 ≤ v := by omega
      have hlt2 : v < i + 1 + rest.length := by
        simp at hlt
        omega
      simp [isViewCall, hne,
        ih (i + 1) v (fun x hx => hok x (List.mem_cons_of_mem w hx)) hle2 hlt2]

/-! ## Reduction lemmas for `loopIter` under branch hypotheses -/

lemma loopIter_reached (s : LoopState) (inp : FrameInput)
    (hpoll : inp.pollEndOk = true)
    (hstop : (processEvents inp.events
        { running := s.running, isVisible := s.isVisible, isStopping := false }).isStopping
      = false)
    (hvis : (processEvents inp.events
        { running := s.running, isVisible := s.isVisible, isStopping := false }).isVisible
      = true)
    (hwait : inp.waitFrameOk = true) (hloc : inp.locateViewsOk = true)
    (hbegin : inp.beginFrameOk = true) :
    (loopIter s inp).2.1
      = List.replicate (inp.events.length + 1) Call.pollEvent ++ sdlTrace inp
        ++ [Call.waitFrame, Call.locateViews, Call.syncActions]
        ++ handTrace inp ++ [Call.beginFrame] ++ viewLoop 0 inp.views ++ [Call.endFrame] := by
  simp only [loopIter, hpoll, hstop, hvis, hwait, hloc, hbegin]
  simp

lemma loopIter_begin_fail (s : LoopState) (inp : FrameInput)
    (hpoll : inp.pollEndOk = true)
    (hstop : (processEvents inp.events
        { running := s.running, isVisible := s.isVisible, isStopping := false }).isStopping
      = false)
    (hvis : (processEvents inp.events
        { running := s.running, isVisible := s.isVisible, isStopping := false }).isVisible
      = true)
    (hwait : inp.waitFrameOk = true) (hloc : inp.locateViewsOk = true)
    (hbegin : inp.beginFrameOk = false) :
    (loopIter s inp).2.1
      = List.replicate (inp.events.length + 1) Call.pollEvent ++ sdlTrace inp
        ++ [Call.waitFrame, Call.locateViews, Call.syncActions]
        ++ handTrace inp ++ [Call.beginFrame] := by
  simp only [loopIter, hpoll, hstop, hvis, hwait, hloc, hbegin]
  simp

lemma applyHaptic_not_mem_sdlTrace (j : ℕ) (inp : FrameInput) :
    Call.applyHaptic j ∉ sdlTrace inp := by
  intro hm
  rcases mem_sdlTrace hm with h | h <;> simp at h

/-! ## Claim theorems -/

/-- C4: in every frame-loop iteration of `main.c`, runtime event polling is
repeated until the terminal "event unavailable" result (one `xrPollEvent`
call per pending event plus the final terminal call), and this drainage is
an uninterrupted prefix of the iteration's calls: every other call of the
iteration — in particular every pose-locate and the frame-begin call —
happens after it. -/
theorem events_drained_before_frame_calls (s : LoopState) (inp : FrameInput) :
    ∃ rest, (loopIter s inp).2.1
        = List.replicate (inp.events.length + 1) Call.pollEvent ++ rest
      ∧ Call.pollEvent ∉ rest := by
  simp only [loopIter]
  split
  · exact ⟨[], by simp, by simp⟩
  · split
    · exact ⟨[Call.endSession], by simp, by simp⟩
    · split
      · exact ⟨[], by simp, by simp⟩
      · split
        · refine ⟨sdlTrace inp ++ [Call.waitFrame], by simp, ?_⟩
          simp [pollEvent_not_mem_sdlTrace]
        · split
          · refine ⟨sdlTrace inp ++ [Call.waitFrame, Call.locateViews], by simp, ?_⟩
            simp [pollEvent_not_mem_sdlTrace]
          · split
            · refine ⟨sdlTrace inp ++ [Call.waitFrame, Call.locateViews, Call.syncActions]
                ++ handTrace inp ++ [Call.beginFrame], by simp, ?_⟩
              simp [pollEvent_not_mem_sdlTrace, pollEvent_not_mem_handTrace]
            · refine ⟨sdlTrace inp ++ [Call.waitFrame, Call.locateViews, Call.syncActions]
                ++ handTrace inp ++ [Call.beginFrame] ++ viewLoop 0 inp.views
                ++ [Call.endFrame], by simp, ?_⟩
              simp [pollEvent_not_mem_sdlTrace, pollEvent_not_mem_handTrace,
                pollEvent_not_mem_viewLoop]

/-- C3 counterexample: an iteration of `main.c` that receives a session
state change to `IDLE` — a state strictly below the visible/focused states,
so "the session is not in a visible or focused state" — still performs the
frame-wait, render and frame-submit calls, because `main.c` computes
`isVisible = state <= XR_SESSION_STATE_FOCUSED`, which is true for `IDLE`. -/
theorem visibility_threshold_counterexample :
    XR_SESSION_STATE_IDLE < XR_SESSION_STATE_VISIBLE
    ∧ Call.waitFrame ∈ (loopIter initialLoopState frameIdleEvent).2.1
    ∧ Call.renderView 0 ∈ (loopIter initialLoopState frameIdleEvent).2.1
    ∧ Call.endFrame ∈ (loopIter initialLoopState frameIdleEvent).2.1
    ∧ (loopIter initialLoopState frameIdleEvent).2.2 = StepResult.nextIter := by
  decide

/-- C3 (amended): in every `main.c` iteration in which the locally tracked
visibility flag is false after event drainage — which the code makes true
exactly for session states strictly above FOCUSED, not for every state
below the visible threshold — no frame-wait, render, or frame-submit call
is made, and if additionally no stopping condition was observed and polling
ended with the terminal "event unavailable" result, the loop skips straight
to the next iteration. -/
theorem invisible_skips_frame_calls (s : LoopState) (inp : FrameInput)
    (hvis : (processEvents inp.events
        { running := s.running, isVisible := s.isVisible, isStopping := false }).isVisible
      = false) :
    Call.waitFrame ∉ (loopIter s inp).2.1
    ∧ (∀ v, Call.renderView v ∉ (loopIter s inp).2.1)
    ∧ Call.endFrame ∉ (loopIter s inp).2.1
    ∧ ((processEvents inp.events
          { running := s.running, isVisible := s.isVisible, isStopping := false }).isStopping
            = false →
        inp.pollEndOk = true →
        (loopIter s inp).2.2 = StepResult.nextIter) := by
  by_cases h1 : inp.pollEndOk = false
  · simp [loopIter, h1, List.mem_replicate]
  · have h1t : inp.pollEndOk = true := by
      revert h1
      cases inp.pollEndOk <;> simp
    by_cases h2 : (processEvents inp.events
        { running := s.running, isVisible := s.isVisible, isStopping := false }).isStopping
          = true
    · simp [loopIter, h1t, h2, List.mem_replicate]
    · have h2f : (processEvents inp.events
          { running := s.running, isVisible := s.isVisible, isStopping := false }).isStopping
            = false := by
        revert h2
        cases (processEvents inp.events
          { running := s.running, isVisible := s.isVisible, isStopping := false }).isStopping <;>
          simp
      simp [loopIter, h1t, h2f, hvis, List.mem_replicate]

/-- C1: in every `main.c` iteration that reaches the per-hand action
processing (poll drained, not stopping, visible, frame wait and view
location succeeded), the haptic-feedback call for a hand is made if and
only if that hand's queried grab state is active and its current value is
strictly greater than 0.75, and when it fires it fires exactly once for
that hand in that iteration. -/
theorem grab_haptic_threshold (s : LoopState) (inp : FrameInput)
    (hpoll : inp.pollEndOk = true)
    (hstop : (processEvents inp.events
        { running := s.running, isVisible := s.isVisible, isStopping := false }).isStopping
      = false)
    (hvis : (processEvents inp.events
        { running := s.running, isVisible := s.isVisible, isStopping := false }).isVisible
      = true)
    (hwait : inp.waitFrameOk = true)
    (hloc : inp.locateViewsOk = true) :
    (Call.applyHaptic 0 ∈ (loopIter s inp).2.1
       ↔ (inp.hand0.grabActive = true ∧ (0.75 : ℚ) < inp.hand0.grabValue))
    ∧ (Call.applyHaptic 1 ∈ (loopIter s inp).2.1
       ↔ (inp.hand1.grabActive = true ∧ (0.75 : ℚ) < inp.hand1.grabValue))
    ∧ (loopIter s inp).2.1.count (Call.applyHaptic 0)
        = (if inp.hand0.grabActive = true ∧ (0.75 : ℚ) < inp.hand0.grabValue then 1 else 0)
    ∧ (loopIter s inp).2.1.count (Call.applyHaptic 1)
        = (if inp.hand1.grabActive = true ∧ (0.75 : ℚ) < inp.hand1.grabValue then 1 else 0) := by
  have hseg : ∀ j : ℕ,
      (List.replicate (inp.events.length + 1) Call.pollEvent).count (Call.applyHaptic j) = 0 :=
    fun j => List.count_eq_zero_of_not_mem (by simp [List.mem_replicate])
  have hsdl : ∀ j : ℕ, (sdlTrace inp).count (Call.applyHaptic j) = 0 :=
    fun j => List.count_eq_zero_of_not_mem (applyHaptic_not_mem_sdlTrace j inp)
  have hmid : ∀ j : ℕ,
      ([Call.waitFrame, Call.locateViews, Call.syncActions]).count (Call.applyHaptic j) = 0 :=
    fun j => List.count_eq_zero_of_not_mem (by simp)
  have hbeg : ∀ j : ℕ, ([Call.beginFrame]).count (Call.applyHaptic j) = 0 :=
    fun j => List.count_eq_zero_of_not_mem (by simp)
  have hend : ∀ j : ℕ, ([Call.endFrame]).count (Call.applyHaptic j) = 0 :=
    fun j => List.count_eq_zero_of_not_mem (by simp)
  have hvl : ∀ j : ℕ, (viewLoop 0 inp.views).count (Call.applyHaptic j) = 0 :=
    fun j => List.count_eq_zero_of_not_mem (applyHaptic_not_mem_viewLoop j 0 inp.views)
  have hht : ∀ j : ℕ, (handTrace inp).count (Call.applyHaptic j)
      = (if j = 0 ∧ grabFiresHaptic inp.hand0 = true then 1 else 0)
        + (if j = 1 ∧ grabFiresHaptic inp.hand1 = true then 1 else 0) := by
    intro j
    simp [handTrace, List.count_append, count_applyHaptic_processHand]
  by_cases hb : inp.beginFrameOk = true
  · rw [loopIter_reached s inp hpoll hstop hvis hwait hloc hb]
    refine ⟨?_, ?_, ?_, ?_⟩ <;>
      simp [List.mem_append, List.mem_replicate, applyHaptic_mem_handTrace,
        applyHaptic_not_mem_viewLoop, applyHaptic_not_mem_sdlTrace,
        List.count_append, hseg, hsdl, hmid, hbeg, hend, hvl, hht,
        grabFiresHaptic, Bool.and_eq_true, decide_eq_true_eq]
  · have hbf : inp.beginFrameOk = false := by
      revert hb
      cases inp.beginFrameOk <;> simp
    rw [loopIter_begin_fail s inp hpoll hstop hvis hwait hloc hbf]
    refine ⟨?_, ?_, ?_, ?_⟩ <;>
      simp [List.mem_append, List.mem_replicate, applyHaptic_mem_handTrace,
        applyHaptic_not_mem_sdlTrace,
        List.count_append, hseg, hsdl, hmid, hbeg, hend, hht,
        grabFiresHaptic, Bool.and_eq_true, decide_eq_true_eq]

/-- Witness for C1 at a concrete iteration: the left hand grabs with value
1 (over the threshold), the right hand is inactive. -/
theorem grab_haptic_threshold_witness :
    frameAllOk.pollEndOk = true
    ∧ ((Call.applyHaptic 0 ∈ (loopIter initialLoopState frameAllOk).2.1
         ↔ (frameAllOk.hand0.grabActive = true ∧ (0.75 : ℚ) < frameAllOk.hand0.grabValue))
       ∧ (Call.applyHaptic 1 ∈ (loopIter initialLoopState frameAllOk).2.1
         ↔ (frameAllOk.hand1.grabActive = true ∧ (0.75 : ℚ) < frameAllOk.hand1.grabValue))
       ∧ (loopIter initialLoopState frameAllOk).2.1.count (Call.applyHaptic 0)
           = (if frameAllOk.hand0.grabActive = true ∧ (0.75 : ℚ) < frameAllOk.hand0.grabValue
              then 1 else 0)
       ∧ (loopIter initialLoopState frameAllOk).2.1.count (Call.applyHaptic 1)
           = (if frameAllOk.hand1.grabActive = true ∧ (0.75 : ℚ) < frameAllOk.hand1.grabValue
              then 1 else 0)) :=
  ⟨rfl, grab_haptic_threshold initialLoopState frameAllOk rfl rfl rfl rfl rfl⟩

/-- Witness for the amended C3 at a concrete iteration: the visibility
flag is already false and no event arrives; the iteration only polls and
continues. -/
theorem invisible_skips_frame_calls_witness :
    (processEvents frameQuiet.events
        { running := loopStateInvisible.running, isVisible := loopStateInvisible.isVisible,
          isStopping := false }).isVisible = false
    ∧ (Call.waitFrame ∉ (loopIter loopStateInvisible frameQuiet).2.1
       ∧ (∀ v, Call.renderView v ∉ (loopIter loopStateInvisible frameQuiet).2.1)
       ∧ Call.endFrame ∉ (loopIter loopStateInvisible frameQuiet).2.1
       ∧ ((processEvents frameQuiet.events
             { running := loopStateInvisible.running, isVisible := loopStateInvisible.isVisible,
               isStopping := false }).isStopping = false →
           frameQuiet.pollEndOk = true →
           (loopIter loopStateInvisible frameQuiet).2.2 = StepResult.nextIter)) :=
  ⟨rfl, invisible_skips_frame_calls loopStateInvisible frameQuiet rfl⟩

/-! ### Per-constructor segment exclusion lemmas -/

lemma releaseImage_not_mem_sdlTrace (v : ℕ) (inp : FrameInput) :
    Call.releaseImage v ∉ sdlTrace inp := by
  intro hm
  rcases mem_sdlTrace hm with h | h <;> simp at h

lemma renderView_not_mem_sdlTrace (v : ℕ) (inp : FrameInput) :
    Call.renderView v ∉ sdlTrace inp := by
  intro hm
  rcases mem_sdlTrace hm with h | h <;> simp at h

lemma acquireImage_not_mem_sdlTrace (v : ℕ) (inp : FrameInput) :
    Call.acquireImage v ∉ sdlTrace inp := by
  intro hm
  rcases mem_sdlTrace hm with h | h <;> simp at h

lemma releaseImage_not_mem_handTrace (v : ℕ) (inp : FrameInput) :
    Call.releaseImage v ∉ handTrace inp := by
  intro hm
  rcases List.mem_append.mp hm with h | h <;>
    rcases mem_processHand h with h1 | h1 | h1 | h1 | h1 <;> simp at h1

lemma renderView_not_mem_handTrace (v : ℕ) (inp : FrameInput) :
    Call.renderView v ∉ handTrace inp := by
  intro hm
  rcases List.mem_append.mp hm with h | h <;>
    rcases mem_processHand h with h1 | h1 | h1 | h1 | h1 <;> simp at h1

lemma acquireImage_not_mem_handTrace (v : ℕ) (inp : FrameInput) :
    Call.acquireImage v ∉ handTrace inp := by
  intro hm
  rcases List.mem_append.mp hm with h | h <;>
    rcases mem_processHand h with h1 | h1 | h1 | h1 | h1 <;> simp at h1

/-- Any call in an iteration's trace that can only be emitted by the
per-view render loop lies in the `viewLoop` segment. -/
lemma view_call_from_viewLoop (s2 : LoopState) (inp2 : FrameInput) (c : Call)
    (hsdl : c ∉ sdlTrace inp2) (hhand : c ∉ handTrace inp2)
    (hp : c ≠ Call.pollEvent) (hes : c ≠ Call.endSession) (hwf : c ≠ Call.waitFrame)
    (hlv : c ≠ Call.locateViews) (hsy : c ≠ Call.syncActions) (hbf : c ≠ Call.beginFrame)
    (hef : c ≠ Call.endFrame)
    (hm : c ∈ (loopIter s2 inp2).2.1) :
    c ∈ viewLoop 0 inp2.views := by
  revert hm
  simp only [loopIter]
  split
  · intro hm
    simp [List.mem_replicate, hp] at hm
  · split
    · intro hm
      simp [List.mem_append, List.mem_replicate, hp, hes] at hm
    · split
      · intro hm
        simp [List.mem_replicate, hp] at hm
      · split
        · intro hm
          simp [List.mem_append, List.mem_replicate, hsdl, hp, hwf] at hm
        · split
          · intro hm
            simp [List.mem_append, List.mem_replicate, hsdl, hp, hwf, hlv] at hm
          · split
            · intro hm
              simp [List.mem_append, List.mem_replicate, hsdl, hhand, hp, hwf, hlv, hsy,
                hbf] at hm
            · intro hm
              simp [List.mem_append, List.mem_replicate, hsdl, hhand, hp, hwf, hlv, hsy,
                hbf, hef] at hm
              exact hm

/-- A release call for view `v` is only made after the acquire and wait
calls for that view succeeded. -/
lemma release_needs_wait (s2 : LoopState) (inp2 : FrameInput) (v : ℕ)
    (hm : Call.releaseImage v ∈ (loopIter s2 inp2).2.1) :
    ∃ hv : v < inp2.views.length,
      (inp2.views.get ⟨v, hv⟩).acquireOk = true ∧ (inp2.views.get ⟨v, hv⟩).waitOk = true := by
  have h1 : Call.releaseImage v ∈ viewLoop 0 inp2.views :=
    view_call_from_viewLoop s2 inp2 _ (releaseImage_not_mem_sdlTrace v inp2)
      (releaseImage_not_mem_handTrace v inp2) (by simp) (by simp) (by simp) (by simp)
      (by simp) (by simp) (by simp) hm
  obtain ⟨j, hj, _, hd⟩ := viewLoop_mem_strong inp2.views 0 _ h1
  rcases hd with hd | hd | hd
  · simp at hd
  · rcases hd with ⟨hd, _⟩
    simp at hd
  · rcases hd with ⟨hd, ha, hw⟩
    rcases hd with hd | hd
    · simp at hd
    · have hv : v = j := by simpa using hd
      subst hv
      exact ⟨hj, ha, hw⟩

/-- A render pass for view `v` only happens after the acquire and wait
calls for that view succeeded. -/
lemma render_needs_wait (s2 : LoopState) (inp2 : FrameInput) (v : ℕ)
    (hm : Call.renderView v ∈ (loopIter s2 inp2).2.1) :
    ∃ hv : v < inp2.views.length,
      (inp2.views.get ⟨v, hv⟩).acquireOk = true ∧ (inp2.views.get ⟨v, hv⟩).waitOk = true := by
  have h1 : Call.renderView v ∈ viewLoop 0 inp2.views :=
    view_call_from_viewLoop s2 inp2 _ (renderView_not_mem_sdlTrace v inp2)
      (renderView_not_mem_handTrace v inp2) (by simp) (by simp) (by simp) (by simp)
      (by simp) (by simp) (by simp) hm
  obtain ⟨j, hj, _, hd⟩ := viewLoop_mem_strong inp2.views 0 _ h1
  rcases hd with hd | hd | hd
  · simp at hd
  · rcases hd with ⟨hd, _⟩
    simp at hd
  · rcases hd with ⟨hd, ha, hw⟩
    rcases hd with hd | hd
    · have hv : v = j := by simpa using hd
      subst hv
      exact ⟨hj, ha, hw⟩
    · simp at hd

lemma filter_isViewCall_sdlTrace (v : ℕ) (inp : FrameInput) :
    (sdlTrace inp).filter (isViewCall v) = [] := by
  unfold sdlTrace
  by_cases hq : inp.quitRequested <;> simp [hq, isViewCall]

lemma filter_isViewCall_processHand (v i : ℕ) (h : HandInput) :
    (processHand i h).filter (isViewCall v) = [] := by
  unfold processHand
  by_cases hg : grabFiresHaptic h <;> simp [hg, isViewCall]

lemma filter_isViewCall_handTrace (v : ℕ) (inp : FrameInput) :
    (handTrace inp).filter (isViewCall v) = [] := by
  simp [handTrace, List.filter_append, filter_isViewCall_processHand]

lemma mem_sdlTrace_iff {c : Call} {inp : FrameInput} :
    c ∈ sdlTrace inp
      ↔ (c = Call.sdlPoll ∨ (inp.quitRequested = true ∧ c = Call.requestExit)) := by
  unfold sdlTrace
  by_cases hq : inp.quitRequested <;> simp [hq]

lemma mem_processHand_iff {c : Call} {i : ℕ} {h : HandInput} :
    c ∈ processHand i h
      ↔ (c = Call.getActionStatePose i ∨ c = Call.locateSpace i ∨ c = Call.getGrabValue i
          ∨ (grabFiresHaptic h = true ∧ c = Call.applyHaptic i) ∨ c = Call.getLeverValue i) := by
  unfold processHand
  by_cases hg : grabFiresHaptic h <;> simp [hg]

/-- C5: per rendered frame and view, `main.c` acquires, waits on, renders
into, and releases the swapchain image, in that order, exactly once per
view (on the all-success path); moreover, unconditionally, no image is
released or rendered into unless the acquire and wait calls of exactly
that view succeeded first. -/
theorem swapchain_image_lifecycle (s : LoopState) (inp : FrameInput)
    (hpoll : inp.pollEndOk = true)
    (hstop : (processEvents inp.events
        { running := s.running, isVisible := s.isVisible, isStopping := false }).isStopping
      = false)
    (hvis : (processEvents inp.events
        { running := s.running, isVisible := s.isVisible, isStopping := false }).isVisible
      = true)
    (hwait : inp.waitFrameOk = true) (hloc : inp.locateViewsOk = true)
    (hbegin : inp.beginFrameOk = true)
    (hok : ∀ x ∈ inp.views, viewAllOk x = true) :
    (∀ v, v < inp.views.length →
      ((loopIter s inp).2.1).filter (isViewCall v)
        = [Call.acquireImage v, Call.waitImage v, Call.renderView v, Call.releaseImage v])
    ∧ (∀ (s2 : LoopState) (inp2 : FrameInput) (v : ℕ),
        Call.releaseImage v ∈ (loopIter s2 inp2).2.1 →
        ∃ hv : v < inp2.views.length,
          (inp2.views.get ⟨v, hv⟩).acquireOk = true ∧ (inp2.views.get ⟨v, hv⟩).waitOk = true)
    ∧ (∀ (s2 : LoopState) (inp2 : FrameInput) (v : ℕ),
        Call.renderView v ∈ (loopIter s2 inp2).2.1 →
        ∃ hv : v < inp2.views.length,
          (inp2.views.get ⟨v, hv⟩).acquireOk = true ∧ (inp2.views.get ⟨v, hv⟩).waitOk = true) := by
  refine ⟨?_, fun s2 inp2 v hm => release_needs_wait s2 inp2 v hm,
    fun s2 inp2 v hm => render_needs_wait s2 inp2 v hm⟩
  intro v hv
  rw [loopIter_reached s inp hpoll hstop hvis hwait hloc hbegin]
  simp [List.filter_append, List.filter_replicate, isViewCall, filter_isViewCall_sdlTrace,
    filter_isViewCall_handTrace,
    filter_viewLoop_all_ok inp.views 0 v hok (Nat.zero_le v) (by omega)]

/-- Witness for C5 at a concrete all-success iteration with two views. -/
theorem swapchain_image_lifecycle_witness :
    (∀ x ∈ frameAllOk.views, viewAllOk x = true)
    ∧ (∀ v, v < frameAllOk.views.length →
        ((loopIter initialLoopState frameAllOk).2.1).filter (isViewCall v)
          = [Call.acquireImage v, Call.waitImage v, Call.renderView v, Call.releaseImage v]) :=
  ⟨by decide,
   (swapchain_image_lifecycle initialLoopState frameAllOk rfl rfl rfl rfl rfl rfl
      (by decide)).1⟩

/-- C8 counterexample: an iteration of `main.c` whose single view fails
its acquire call still submits the frame (`xrEndFrame` is called) and the
frame loop is **not** exited — the C `break` leaves only the per-view
`for` loop. -/
theorem view_failure_still_submits_counterexample :
    frameAcquireFails.views = [viewAcquireFails]
    ∧ viewAcquireFails.acquireOk = false
    ∧ Call.endFrame ∈ (loopIter initialLoopState frameAcquireFails).2.1
    ∧ (loopIter initialLoopState frameAcquireFails).2.2 = StepResult.nextIter := by
  decide

/-- C8 (amended): in `main.c`, failures of wait-frame, locate-views,
begin-frame and end-frame exit the frame loop in that iteration, with no
later must-succeed frame call made; but a failure of
acquire/wait/release-image aborts only the per-view rendering loop — no
later view is acquired, yet the iteration still proceeds to the frame-end
submission, and only an end-frame failure then exits the loop. -/
theorem per_frame_failure_handling (s : LoopState) (inp : FrameInput)
    (hpoll : inp.pollEndOk = true)
    (hstop : (processEvents inp.events
        { running := s.running, isVisible := s.isVisible, isStopping := false }).isStopping
      = false)
    (hvis : (processEvents inp.events
        { running := s.running, isVisible := s.isVisible, isStopping := false }).isVisible
      = true) :
    (inp.waitFrameOk = false →
       (loopIter s inp).2.2 = StepResult.exitLoop
       ∧ Call.locateViews ∉ (loopIter s inp).2.1
       ∧ Call.beginFrame ∉ (loopIter s inp).2.1
       ∧ Call.endFrame ∉ (loopIter s inp).2.1)
    ∧ (inp.waitFrameOk = true → inp.locateViewsOk = false →
       (loopIter s inp).2.2 = StepResult.exitLoop
       ∧ Call.beginFrame ∉ (loopIter s inp).2.1
       ∧ Call.endFrame ∉ (loopIter s inp).2.1)
    ∧ (inp.waitFrameOk = true → inp.locateViewsOk = true → inp.beginFrameOk = false →
       (loopIter s inp).2.2 = StepResult.exitLoop
       ∧ Call.endFrame ∉ (loopIter s inp).2.1
       ∧ (∀ v, Call.acquireImage v ∉ (loopIter s inp).2.1))
    ∧ (inp.waitFrameOk = true → inp.locateViewsOk = true → inp.beginFrameOk = true →
       Call.endFrame ∈ (loopIter s inp).2.1
       ∧ (inp.endFrameOk = false → (loopIter s inp).2.2 = StepResult.exitLoop)
       ∧ (∀ v, ∀ hv : v < inp.views.length,
            (inp.views.get ⟨v, hv⟩).acquireOk = false →
            ∀ w, v < w → Call.acquireImage w ∉ (loopIter s inp).2.1)) := by
  refine ⟨?_, ?_, ?_, ?_⟩
  · intro hw
    simp [loopIter, hpoll, hstop, hvis, hw, List.mem_append, List.mem_replicate,
      mem_sdlTrace_iff]
  · intro hw hl
    simp [loopIter, hpoll, hstop, hvis, hw, hl, List.mem_append, List.mem_replicate,
      mem_sdlTrace_iff]
  · intro hw hl hb
    simp [loopIter, hpoll, hstop, hvis, hw, hl, hb, List.mem_append, List.mem_replicate,
      mem_sdlTrace_iff, handTrace, mem_processHand_iff]
  · intro hw hl hb
    refine ⟨?_, ?_, ?_⟩
    · rw [loopIter_reached s inp hpoll hstop hvis hw hl hb]
      simp
    · intro he
      simp [loopIter, hpoll, hstop, hvis, hw, hl, hb, he]
    · intro v hv hfail w hvw hm
      have h1 : Call.acquireImage w ∈ viewLoop 0 inp.views :=
        view_call_from_viewLoop s inp _ (acquireImage_not_mem_sdlTrace w inp)
          (acquireImage_not_mem_handTrace w inp) (by simp) (by simp) (by simp) (by simp)
          (by simp) (by simp) (by simp) hm
      obtain ⟨j, hj, hks, hd⟩ := viewLoop_mem_strong inp.views 0 _ h1
      have hwj : w = j := by
        rcases hd with hd | hd | hd
        · simpa using hd
        · rcases hd with ⟨hd, _⟩
          simp at hd
        · rcases hd with ⟨hd | hd, _, _⟩ <;> simp at hd
      subst hwj
      have ha : (inp.views.get ⟨v, hv⟩).acquireOk = true := by
        have h2 := hks v hvw
        simp only [viewAllOk, Bool.and_eq_true] at h2
        exact h2.1.1
      rw [hfail] at ha
      exact Bool.false_ne_true ha

/-- Witness for the amended C8 at the concrete acquire-failure iteration:
the frame is still submitted and the loop continues. -/
theorem per_frame_failure_handling_witness :
    frameAcquireFails.pollEndOk = true
    ∧ (frameAcquireFails.waitFrameOk = true → frameAcquireFails.locateViewsOk = true →
        frameAcquireFails.beginFrameOk = true →
        Call.endFrame ∈ (loopIter initialLoopState frameAcquireFails).2.1
        ∧ (frameAcquireFails.endFrameOk = false →
            (loopIter initialLoopState frameAcquireFails).2.2 = StepResult.exitLoop)
        ∧ (∀ v, ∀ hv : v < frameAcquireFails.views.length,
             (frameAcquireFails.views.get ⟨v, hv⟩).acquireOk = false →
             ∀ w, v < w →
               Call.acquireImage w ∉ (loopIter initialLoopState frameAcquireFails).2.1)) :=
  ⟨rfl, (per_frame_failure_handling initialLoopState frameAcquireFails rfl rfl rfl).2.2.2⟩

/-- C2: the cube rotation angle rendered each frame is a pure function of
the frame's predicted display time; for nonnegative display times (the
only ones the runtime produces) the C computation
`((long)(display_time_seconds * 360. * 0.25)) % 360` agrees with the spec
formula `floor(display_time_seconds * 360 * 0.25) mod 360`, and
display-time 1.0 s yields 90 degrees while 4.0 s yields 0 degrees. -/
theorem rotation_angle_matches_spec :
    (∀ t : ℤ, 0 ≤ t →
      rotation_degrees t = spec_rotation_degrees (display_time_seconds t))
    ∧ rotation_degrees 1000000000 = 90
    ∧ rotation_degrees 4000000000 = 0 := by
  refine ⟨?_, ?_, ?_⟩
  · intro t ht
    have hdts : (0 : ℚ) ≤ display_time_seconds t := by
      unfold display_time_seconds
      apply div_nonneg
      · exact_mod_cast ht
      · norm_num
    have harg : (0 : ℚ) ≤ display_time_seconds t * 360 * rotations_per_sec := by
      apply mul_nonneg (mul_nonneg hdts (by norm_num))
      norm_num [rotations_per_sec]
    have hfloor : (0 : ℤ) ≤ ⌊display_time_seconds t * 360 * rotations_per_sec⌋ :=
      Int.floor_nonneg.mpr harg
    unfold rotation_degrees c_long_cast c_mod
    rw [if_pos harg, if_pos hfloor]
    unfold spec_rotation_degrees rotations_per_sec
    rfl
  · have h1 : display_time_seconds 1000000000 * 360 * rotations_per_sec = 90 := by
      unfold display_time_seconds rotations_per_sec
      norm_num
    unfold rotation_degrees c_long_cast c_mod
    rw [h1, if_pos (by norm_num : (0 : ℚ) ≤ 90)]
    rw [show ((90 : ℚ) = ((90 : ℤ) : ℚ)) by norm_num, Int.floor_intCast]
    norm_num
  · have h4 : display_time_seconds 4000000000 * 360 * rotations_per_sec = 360 := by
      unfold display_time_seconds rotations_per_sec
      norm_num
    unfold rotation_degrees c_long_cast c_mod
    rw [h4, if_pos (by norm_num : (0 : ℚ) ≤ 360)]
    rw [show ((360 : ℚ) = ((360 : ℤ) : ℚ)) by norm_num, Int.floor_intCast]
    norm_num

/-- Witness for C2 at the concrete display time 1.0 s. -/
theorem rotation_angle_matches_spec_witness :
    (0 : ℤ) ≤ 1000000000
    ∧ rotation_degrees 1000000000 = spec_rotation_degrees (display_time_seconds 1000000000) :=
  ⟨by norm_num, rotation_angle_matches_spec.1 1000000000 (by norm_num)⟩

/-- C9: `main.c` computes the quad-layer aspect ratio as the texture width
divided by the same width, which is 1 regardless of the texture's actual
dimensions, so the submitted quad's height equals its width.  The intended
formula (width / height, which `main.cpp` implements) gives a different
height at the 800x600 example. -/
theorem quad_aspect_width_over_width_bug :
    quad_aspect_main_c 800 = 1
    ∧ quad_size_height_main_c 800 = quad_size_width_main_c 800
    ∧ quad_aspect_intended 800 600 = 4 / 3
    ∧ quad_size_width_main_c 800 / quad_aspect_intended 800 600 = 3 / 5
    ∧ quad_size_height_main_c 800 ≠ quad_size_width_main_c 800 / quad_aspect_intended 800 600
    ∧ quad_aspect_main_cpp 800 600 = quad_aspect_intended 800 600 := by
  norm_num [quad_aspect_main_c, quad_size_height_main_c, quad_size_width_main_c,
    quad_aspect_intended, quad_aspect_main_cpp]

/-- C10: the hand pose passed to rendering is marked valid exactly when
the located hand space's orientation-valid flag is set; the position-valid
flag is ignored, so a location with valid orientation but invalid position
is still treated as valid and its controller block is drawn. -/
theorem hand_pose_validity_orientation_only :
    (∀ flags : ℕ, hand_location_valid flags = true
       ↔ flags &&& XR_SPACE_LOCATION_ORIENTATION_VALID_BIT ≠ 0)
    ∧ (∀ flags : ℕ,
        hand_location_valid (flags ||| XR_SPACE_LOCATION_POSITION_VALID_BIT)
          = hand_location_valid flags)
    ∧ hand_location_valid XR_SPACE_LOCATION_ORIENTATION_VALID_BIT = true
    ∧ hand_location_valid XR_SPACE_LOCATION_POSITION_VALID_BIT = false
    ∧ draws_controller_block false
        (hand_location_valid XR_SPACE_LOCATION_ORIENTATION_VALID_BIT) = true := by
  refine ⟨?_, ?_, by decide, by decide, by decide⟩
  · intro flags
    simp [hand_location_valid, bne_iff_ne]
  · intro flags
    have h2 : (flags ||| 2) &&& 1 = flags &&& 1 := by
      rw [Nat.and_comm, Nat.and_or_distrib_left]
      simp [Nat.and_comm]
    simp [hand_location_valid, XR_SPACE_LOCATION_POSITION_VALID_BIT,
      XR_SPACE_LOCATION_ORIENTATION_VALID_BIT, h2]

/-- C6: if the mandatory OpenGL interop extension is absent from the
enumerated extension list, `main.c`'s bootstrap returns 1 immediately, no
`xrCreateSession` call has been made, and the process exits with the
nonzero code 1. -/
theorem missing_opengl_ext_aborts_bootstrap (env : BootEnv)
    (h1 : env.enumExtCountOk = true) (h2 : env.enumExtOk = true)
    (h3 : isExtensionSupported XR_KHR_OPENGL_ENABLE_EXTENSION_NAME env.extensions = false) :
    (init_openxr env).1 = 1
    ∧ Call.createSession ∉ (init_openxr env).2
    ∧ c_main env = 1
    ∧ c_main env ≠ 0 := by
  have htrace : init_openxr env = (1, [Call.enumExtensions, Call.enumExtensions]) := by
    simp only [init_openxr]
    rw [if_neg (by simp [h1]), if_neg (by simp [h2]), if_pos h3]
    simp
  refine ⟨by rw [htrace], by rw [htrace]; simp, ?_, ?_⟩
  · simp [c_main, htrace]
  · simp [c_main, htrace]

/-- Witness for C6 at a concrete environment whose extension list is
empty. -/
theorem missing_opengl_ext_aborts_bootstrap_witness :
    isExtensionSupported XR_KHR_OPENGL_ENABLE_EXTENSION_NAME bootNoOpenGL.extensions = false
    ∧ ((init_openxr bootNoOpenGL).1 = 1
       ∧ Call.createSession ∉ (init_openxr bootNoOpenGL).2
       ∧ c_main bootNoOpenGL = 1
       ∧ c_main bootNoOpenGL ≠ 0) :=
  ⟨by decide, missing_opengl_ext_aborts_bootstrap bootNoOpenGL rfl rfl (by decide)⟩

/-! ### Lemmas for the hand-tracking variant -/

lemma swapchainLoop2_ok (l : List (Bool × Bool)) (h : ∀ p ∈ l, p.1 = true ∧ p.2 = true) :
    (swapchainLoop2 l).1 = true := by
  induction l with
  | nil => rfl
  | cons p rest ih =>
    obtain ⟨h1, h2⟩ := h p (List.mem_cons_self p rest)
    unfold swapchainLoop2
    rw [if_neg (by simp [h1]), if_neg (by simp [h2])]
    exact ih (fun q hq => h q (List.mem_cons_of_mem p hq))

lemma mem_swapchainLoop2 (l : List (Bool × Bool)) :
    ∀ c ∈ (swapchainLoop2 l).2, c = Call.createSwapchain ∨ c = Call.enumSwapchainImages := by
  induction l with
  | nil =>
    intro c hc
    simp [swapchainLoop2] at hc
  | cons p rest ih =>
    intro c hc
    unfold swapchainLoop2 at hc
    split at hc
    · simp at hc
      tauto
    · split at hc
      · simp at hc
        tauto
      · simp at hc
        rcases hc with hc | hc | hc
        · tauto
        · tauto
        · exact ih c hc

lemma locateHandJoints_not_mem_viewLoop2 (j : ℕ) (l : List ViewInput2) :
    ∀ i : ℕ, Call.locateHandJoints j ∉ viewLoop2 i l := by
  induction l with
  | nil =>
    intro i
    simp [viewLoop2]
  | cons v rest ih =>
    intro i
    unfold viewLoop2
    split
    · simp
    · split
      · simp
      · split
        · simp
        · split
          · simp
          · split
            · simp
            · split
              · simp
              · simp [ih (i + 1)]

/-- With the hand-tracking capability flag false, the hand-tracking
variant's frame loop makes no hand-joint location call, in any iteration,
for any runtime responses. -/
lemma locateHandJoints_not_mem_loopIter2 (ctx : XrCtx2)
    (hsup : ctx.hand_tracking_supported = false) (st : ℤ) (inp : FrameInput2) (i : ℕ) :
    Call.locateHandJoints i ∉ (loopIter2 ctx st inp).2.1 := by
  have hhj : handJointsTrace ctx inp.locateJoints0Ok inp.locateJoints1Ok = [] := by
    simp [handJointsTrace, hsup]
  simp only [loopIter2, hhj]
  repeat' split
  all_goals
    simp [List.mem_append, List.mem_replicate, mem_processHand_iff,
      locateHandJoints_not_mem_viewLoop2]

lemma init_openxr2_tail_all_ok (env : BootEnv2) (ctx : XrCtx2) (t : List Call)
    (h1 : env.createRefSpaceOk = true) (h2 : env.beginSessionOk = true)
    (h3 : env.enumFormatsCountOk = true) (h4 : env.enumFormatsOk = true)
    (h5 : (swapchainLoop2 env.colorLoop).1 = true)
    (h6 : env.swapchainFormats.contains GL_DEPTH_COMPONENT32 = true)
    (h7 : (swapchainLoop2 env.depthLoop).1 = true)
    (h8 : env.quadCreateOk = true) (h9 : env.quadEnumOk = true) :
    (init_openxr2_tail env ctx t).ret = 0
    ∧ (init_openxr2_tail env ctx t).ctx = ctx
    ∧ (∀ c ∈ (init_openxr2_tail env ctx t).trace,
        c ∈ t ∨ c = Call.enumRefSpaces ∨ c = Call.createRefSpace ∨ c = Call.beginSession
          ∨ c = Call.enumSwapchainFormats ∨ c = Call.createSwapchain
          ∨ c = Call.enumSwapchainImages ∨ c = Call.genFramebuffersCall) := by
  simp only [init_openxr2_tail]
  rw [if_neg (by simp [h1]), if_neg (by simp [h2]), if_neg (by simp [h3]),
    if_neg (by simp [h4]), if_neg (by simp [h5]), if_neg (by rw [h6]; simp),
    if_neg (by simp [h7]), if_neg (by simp [h8]), if_neg (by simp [h9])]
  refine ⟨rfl, rfl, ?_⟩
  intro c hc
  simp only [List.mem_append, List.mem_cons, List.mem_singleton, List.not_mem_nil,
    or_false] at hc
  have hcolor : c ∈ (swapchainLoop2 env.colorLoop).2 →
      c = Call.createSwapchain ∨ c = Call.enumSwapchainImages :=
    mem_swapchainLoop2 env.colorLoop c
  have hdepth : c ∈ (swapchainLoop2 env.depthLoop).2 →
      c = Call.createSwapchain ∨ c = Call.enumSwapchainImages :=
    mem_swapchainLoop2 env.depthLoop c
  tauto

/-- C7: if the optional hand-tracking extension is not enumerated by the
runtime, the hand-tracking variant's capability flags are false, bootstrap
still succeeds (no fatal error), no hand tracker is created, and the frame
loop never makes a hand-joint location call in any iteration. -/
theorem missing_hand_tracking_ext_is_soft (env : BootEnv2)
    (hok : env.allCallsOk = true)
    (hht : isExtensionSupported XR_EXT_HAND_TRACKING_EXTENSION_NAME env.extensions = false) :
    (init_openxr2 env).ret = 0
    ∧ (init_openxr2 env).ctx.hand_tracking_ext = false
    ∧ (init_openxr2 env).ctx.hand_tracking_supported = false
    ∧ (∀ i, Call.createHandTracker i ∉ (init_openxr2 env).trace)
    ∧ (∀ (st : ℤ) (inp : FrameInput2) (i : ℕ),
        Call.locateHandJoints i ∉ (loopIter2 (init_openxr2 env).ctx st inp).2.1) := by
  simp only [BootEnv2.allCallsOk, Bool.and_eq_true, and_assoc] at hok
  obtain ⟨h01, h02, h03, h04, h05, h06, h07, h08, h09, h10, h11, h12, h13, h14, h15,
    h16, h17, h18, h19, h20, h21, h22, h23, h24, h25⟩ := hok
  have hc5 : (swapchainLoop2 env.colorLoop).1 = true := by
    apply swapchainLoop2_ok
    intro p hp
    have := List.all_eq_true.mp h22 p hp
    simpa [Bool.and_eq_true] using this
  have hc7 : (swapchainLoop2 env.depthLoop).1 = true := by
    apply swapchainLoop2_ok
    intro p hp
    have := List.all_eq_true.mp h23 p hp
    simpa [Bool.and_eq_true] using this
  have hstep : init_openxr2 env
      = init_openxr2_tail env
          { hand_tracking_ext := false, hand_tracking_supported := false,
            tracker0 := false, tracker1 := false }
          [Call.enumExtensions, Call.enumExtensions, Call.createInstance,
           Call.getInstanceProps, Call.getSystem, Call.getSystemProps,
           Call.enumViewConfigs, Call.enumViewConfigs, Call.enumViewConfigViews,
           Call.enumViewConfigViews, Call.getGlReqs, Call.initGraphicsContext,
           Call.initGlRendering, Call.createSession] := by
    simp [init_openxr2, hht, h01, h02, h03, h04, h05, h06, h07, h08, h09, h10, h11,
      h12, h13, Bool.false_and]
  rw [hstep]
  obtain ⟨hret, hctx, htr⟩ := init_openxr2_tail_all_ok env
    { hand_tracking_ext := false, hand_tracking_supported := false,
      tracker0 := false, tracker1 := false }
    [Call.enumExtensions, Call.enumExtensions, Call.createInstance,
     Call.getInstanceProps, Call.getSystem, Call.getSystemProps,
     Call.enumViewConfigs, Call.enumViewConfigs, Call.enumViewConfigViews,
     Call.enumViewConfigViews, Call.getGlReqs, Call.initGraphicsContext,
     Call.initGlRendering, Call.createSession]
    h17 h18 h19 h20 hc5 h21 hc7 h24 h25
  refine ⟨hret, by rw [hctx], by rw [hctx], ?_, ?_⟩
  · intro i hc
    rcases htr _ hc with hc | hc | hc | hc | hc | hc | hc | hc <;> simp at hc
  · intro st inp i
    rw [hctx]
    exact locateHandJoints_not_mem_loopIter2 _ rfl st inp i

/-- Witness for C7 at a concrete environment that enumerates only the
OpenGL extension. -/
theorem missing_hand_tracking_ext_is_soft_witness :
    boot2NoHandTracking.allCallsOk = true
    ∧ isExtensionSupported XR_EXT_HAND_TRACKING_EXTENSION_NAME
        boot2NoHandTracking.extensions = false
    ∧ ((init_openxr2 boot2NoHandTracking).ret = 0
       ∧ (init_openxr2 boot2NoHandTracking).ctx.hand_tracking_ext = false
       ∧ (init_openxr2 boot2NoHandTracking).ctx.hand_tracking_supported = false
       ∧ (∀ i, Call.createHandTracker i ∉ (init_openxr2 boot2NoHandTracking).trace)
       ∧ (∀ (st : ℤ) (inp : FrameInput2) (i : ℕ),
           Call.locateHandJoints i
             ∉ (loopIter2 (init_openxr2 boot2NoHandTracking).ctx st inp).2.1)) :=
  ⟨by decide, by decide,
   missing_hand_tracking_ext_is_soft boot2NoHandTracking (by decide) (by decide)⟩

end XrExample
